import Mathlib

/-!
Shallow embedding of the Bonkitor text editor (src/src/main.rs): a minimal
iced application holding an optional file path, a text-editor buffer and a
last-error field, reacting to six messages and scheduling three kinds of
asynchronous file/dialog tasks.  External effects (filesystem reads and
writes, the native open/save dialogs) are modelled by an explicit
environment record; each async helper (`load_file`, `save_file`,
`pick_file`) becomes a pure function of that environment recording both its
result and its observable actions (dialog shown, write call issued).
-/

namespace Bonkitor

/-- File paths (`std::path::PathBuf`), modelled as strings. -/
abbrev Path := String

/-- The OS error kinds carried by `std::io::ErrorKind` that matter here,
with `other` standing for every remaining kind. -/
inductive ErrorKind where
  | NotFound
  | PermissionDenied
  | other
deriving DecidableEq, Repr

/-- `Display` rendering of an `io::ErrorKind` (Rust `error.to_string()`). -/
def kindString : ErrorKind → String
  | .NotFound => "entity not found"
  | .PermissionDenied => "permission denied"
  | .other => "other error"

/-- The application error type from src/src/main.rs: `enum Error`. -/
inductive Error where
  | DialogClosed
  | IOFailed (kind : ErrorKind)
deriving DecidableEq, Repr

/-- The text-editing widget buffer (`iced::widget::text_editor::Content`):
text plus a cursor position.  The widget is an external collaborator; the
spec treats its content as verbatim text. -/
structure Content where
  text : String
  cursor : Nat × Nat
deriving DecidableEq, Repr

/-- `Content::new()`: empty buffer, cursor at origin. -/
def Content.new : Content := ⟨"", (0, 0)⟩

/-- `Content::with(text)`: buffer holding exactly the given text. -/
def Content.withText (s : String) : Content := ⟨s, (0, 0)⟩

/-- An edit action of the external widget, denoted by the buffer
transformation it performs. -/
def Action := Content → Content

/-- `Content::edit(action)`: apply the widget action to the buffer. -/
def Content.edit (c : Content) (a : Action) : Content := a c

/-- The application state from src/src/main.rs: `struct Editor`. -/
structure Editor where
  path : Option Path
  content : Content
  error : Option Error

/-- The three asynchronous tasks the editor can schedule. -/
inductive Task where
  | loadFile (p : Path)
  | pickFile
  | saveFile (path : Option Path) (text : String)

/-- An iced `Command<Message>`: either nothing or one scheduled task. -/
inductive Command where
  | none
  | perform (t : Task)

/-- True exactly when the command schedules an async task. -/
def Command.isPerform : Command → Bool
  | .none => false
  | .perform _ => true

/-- The message enum from src/src/main.rs, with `Result` as `Except`. -/
inductive Message where
  | Edit (a : Action)
  | New
  | FileOpened (r : Except Error (Path × String))
  | Open
  | Save
  | FileSaved (r : Except Error Path)

/-- The external world as seen by the async helpers: readable file
contents, per-path write failures, and what each dialog would return
(`none` means the user cancels it). -/
structure Env where
  fs : Path → Except ErrorKind String
  writeErr : Path → Option ErrorKind
  saveDialog : Option Path
  openDialog : Option Path

/-- `load_file`: read the file to a string, mapping failure to
`Error::IOFailed(kind)` and success to the pair of path and contents. -/
def load_file (p : Path) (env : Env) : Except Error (Path × String) :=
  match env.fs p with
  | .error k => .error (.IOFailed k)
  | .ok s => .ok (p, s)

/-- `pick_file`: show the open dialog; cancellation is
`Error::DialogClosed`, otherwise load the chosen file. -/
def pick_file (env : Env) : Except Error (Path × String) :=
  match env.openDialog with
  | Option.none => .error .DialogClosed
  | some p => load_file p env

/-- Observable outcome of one `save_file` call: its returned result,
whether the save dialog was shown, and the write call issued to
`tokio::fs::write` (target path and text), if any. -/
structure SaveOutcome where
  result : Except Error Path
  dialogShown : Bool
  writeCall : Option (Path × String)

/-- The write step of `save_file`: `tokio::fs::write(&path, text)` with
errors mapped to `Error::IOFailed(kind)`. -/
def writeStep (p : Path) (text : String) (shown : Bool) (env : Env) : SaveOutcome :=
  match env.writeErr p with
  | some k => ⟨.error (.IOFailed k), shown, some (p, text)⟩
  | Option.none => ⟨.ok p, shown, some (p, text)⟩

/-- `save_file(path, text)`: with a path, write directly; with none, show
the save dialog first (cancellation is `Error::DialogClosed`), then write
to the chosen path. -/
def save_file (path : Option Path) (text : String) (env : Env) : SaveOutcome :=
  match path with
  | some p => writeStep p text false env
  | Option.none =>
    match env.saveDialog with
    | Option.none => ⟨.error .DialogClosed, true, Option.none⟩
    | some p => writeStep p text true env

/-- `default_file()`: the file src/main.rs of the crate itself, under
`CARGO_MANIFEST_DIR` (the manifest directory is a compile-time constant,
taken here as a parameter). -/
def default_file (manifestDir : String) : Path :=
  manifestDir ++ "/src/main.rs"

/-- `Editor::new`: blank state (no path, empty buffer, no error) together
with a command loading the default file. -/
def Editor.new (manifestDir : String) : Editor × Command :=
  (⟨Option.none, Content.new, Option.none⟩,
    .perform (.loadFile (default_file manifestDir)))

/-- `Editor::update`: the synchronous state transition for one message,
returning the new state and the command it schedules. -/
def Editor.update (e : Editor) (m : Message) : Editor × Command :=
  match m with
  | .Edit a =>
    ({ path := e.path, content := e.content.edit a, error := Option.none }, .none)
  | .New =>
    ({ path := Option.none, content := Content.new, error := e.error }, .none)
  | .FileOpened (.ok (p, s)) =>
    ({ path := some p, content := Content.withText s, error := e.error }, .none)
  | .FileOpened (.error err) =>
    ({ e with error := some err }, .none)
  | .FileSaved (.ok p) =>
    ({ e with path := some p }, .none)
  | .FileSaved (.error err) =>
    ({ e with error := some err }, .none)
  | .Open => (e, .perform .pickFile)
  | .Save => (e, .perform (.saveFile e.path e.content.text))

/-- How a completed task is delivered back as a message: `Command::perform`
wraps load/pick results in `FileOpened` and save results in `FileSaved`. -/
def deliver (t : Task) (env : Env) : Message :=
  match t with
  | .loadFile p => .FileOpened (load_file p env)
  | .pickFile => .FileOpened (pick_file env)
  | .saveFile p s => .FileSaved (save_file p s env).result

/-- The status-bar text of `Editor::view`: an `IOFailed` error is rendered
via its kind; otherwise the file path, or "New file" when there is none. -/
def statusText (e : Editor) : String :=
  match e.error with
  | some (.IOFailed k) => kindString k
  | _ =>
    match e.path with
    | some p => p
    | Option.none => "New file"

/-- Messages whose handling starts an async task (`Open` and `Save`). -/
def startsTask : Message → Bool
  | .Open => true
  | .Save => true
  | _ => false

/-- Messages delivering the completion of a previously started task. -/
def completesTask : Message → Bool
  | .FileOpened _ => true
  | .FileSaved _ => true
  | _ => false

/-- Single-flight check over an event trace, starting from a given number
of operations already in flight: every task start must happen with nothing
pending. -/
def singleFlightFrom : Nat → List Message → Bool
  | _, [] => true
  | n, m :: ms =>
    if startsTask m then (n == 0) && singleFlightFrom (n + 1) ms
    else if completesTask m then singleFlightFrom (n - 1) ms
    else singleFlightFrom n ms

/-- Messages whose handling neither clears nor overwrites the error field:
everything except `Edit` and the two failed completions. -/
def keepsError : Message → Bool
  | .Edit _ => false
  | .FileOpened (.error _) => false
  | .FileSaved (.error _) => false
  | _ => true

/-- A sample environment: every read succeeds, every write succeeds, and
both dialogs return a path. -/
def envSample : Env :=
  ⟨fun _ => .ok "contents", fun _ => Option.none, some "chosen.txt", some "picked.txt"⟩

/-- A sample environment in which reads and writes fail and the user
cancels both dialogs. -/
def envCancel : Env :=
  ⟨fun _ => .error .NotFound, fun _ => some .PermissionDenied, Option.none, Option.none⟩

/-- C1: `save_file` with no path shows the save dialog; cancellation yields
`DialogClosed` with no write, otherwise the text is written to the chosen
path.  With a path the write goes directly to it with no dialog.  In both
cases an `ok` result names exactly the path the text was written to. -/
theorem save_file_spec (env : Env) (text : String) :
    (∀ p, (save_file (some p) text env).dialogShown = false ∧
      (save_file (some p) text env).writeCall = some (p, text)) ∧
    ((save_file Option.none text env).dialogShown = true) ∧
    (env.saveDialog = Option.none →
      (save_file Option.none text env).result = .error .DialogClosed ∧
      (save_file Option.none text env).writeCall = Option.none) ∧
    (∀ p, env.saveDialog = some p →
      (save_file Option.none text env).writeCall = some (p, text)) ∧
    (∀ pa q, (save_file pa text env).result = .ok q →
      (save_file pa text env).writeCall = some (q, text)) := by
  refine ⟨?_, ?_, ?_, ?_, ?_⟩
  · intro p
    simp only [save_file, writeStep]
    cases env.writeErr p <;> simp
  · simp only [save_file]
    cases env.saveDialog with
    | none => rfl
    | some p =>
      simp only [writeStep]
      cases env.writeErr p <;> rfl
  · intro h
    simp [save_file, h]
  · intro p h
    simp only [save_file, h, writeStep]
    cases env.writeErr p <;> rfl
  · intro pa q h
    cases pa with
    | some p =>
      simp only [save_file, writeStep] at h ⊢
      cases hw : env.writeErr p <;> simp_all
    | none =>
      simp only [save_file] at h ⊢
      cases hd : env.saveDialog with
      | none => simp [hd] at h
      | some p =>
        simp only [hd, writeStep] at h ⊢
        cases hw : env.writeErr p <;> simp_all

/-- Witness for C1 at concrete environments: direct save to "f.txt" shows
no dialog and writes there; with no path the dialog result "chosen.txt" is
the write target; cancellation produces `DialogClosed` and no write. -/
theorem save_file_spec_witness :
    (save_file (some "f.txt") "T" envSample).dialogShown = false ∧
    (save_file Option.none "T" envSample).writeCall = some ("chosen.txt", "T") ∧
    (save_file (some "f.txt") "T" envSample).writeCall = some ("f.txt", "T") ∧
    (save_file Option.none "T" envCancel).result = .error .DialogClosed ∧
    (save_file Option.none "T" envCancel).writeCall = Option.none :=
  ⟨((save_file_spec envSample "T").1 "f.txt").1,
   (save_file_spec envSample "T").2.2.2.1 "chosen.txt" rfl,
   (save_file_spec envSample "T").2.2.2.2 (some "f.txt") "f.txt" rfl,
   ((save_file_spec envCancel "T").2.2.1 rfl).1,
   ((save_file_spec envCancel "T").2.2.1 rfl).2⟩

/-- C2: a successful load returns exactly the file contents paired with the
queried path, and handling `FileOpened(Ok(p, s))` replaces the document
content with exactly `s` and the path with `p`. -/
theorem load_file_roundtrip (env : Env) (p : Path) (s : String) (e : Editor) :
    (load_file p env = Except.ok (p, s) ↔ env.fs p = Except.ok s) ∧
    (load_file p env =
      Except.mapError Error.IOFailed (Except.map (fun t => (p, t)) (env.fs p))) ∧
    ((e.update (.FileOpened (.ok (p, s)))).1.content.text = s) ∧
    ((e.update (.FileOpened (.ok (p, s)))).1.path = some p) := by
  refine ⟨?_, ?_, rfl, rfl⟩
  · cases h : env.fs p <;> simp [load_file, h]
  · cases h : env.fs p <;> simp [load_file, h, Except.map, Except.mapError]

/-- C3: a failed completion, `FileOpened(Err e)` or `FileSaved(Err e)`
(including `DialogClosed`), records the error and leaves the path and the
document content unchanged. -/
theorem err_completion_frame (e : Editor) (err : Error) :
    ((e.update (.FileOpened (.error err))).1.error = some err) ∧
    ((e.update (.FileOpened (.error err))).1.path = e.path) ∧
    ((e.update (.FileOpened (.error err))).1.content = e.content) ∧
    ((e.update (.FileSaved (.error err))).1.error = some err) ∧
    ((e.update (.FileSaved (.error err))).1.path = e.path) ∧
    ((e.update (.FileSaved (.error err))).1.content = e.content) :=
  ⟨rfl, rfl, rfl, rfl, rfl, rfl⟩

/-- C4 counterexample: a state whose error field is `DialogClosed` renders
the same status text as the identical state with no error at all (the file
path), and two states with the same `DialogClosed` error render different
status texts — so the status area does not display a `DialogClosed`
error. -/
theorem dialog_closed_not_displayed :
    ((⟨some "a.txt", Content.new, some Error.DialogClosed⟩ : Editor).error
        = some Error.DialogClosed) ∧
    (statusText ⟨some "a.txt", Content.new, some Error.DialogClosed⟩ =
      statusText ⟨some "a.txt", Content.new, Option.none⟩) ∧
    (statusText ⟨some "a.txt", Content.new, some Error.DialogClosed⟩ = "a.txt") ∧
    ((statusText ⟨some "a.txt", Content.new, some Error.DialogClosed⟩ ==
      statusText ⟨Option.none, Content.new, some Error.DialogClosed⟩) = false) :=
  ⟨rfl, rfl, rfl, by decide⟩

/-- C4 amended: only `IOFailed` errors are displayed in the status area,
rendered as the OS error-kind description; a `DialogClosed` error is not
displayed, the status showing the path or "New file" exactly as with no
error set.  A displayed `IOFailed` error persists across every message
that neither edits nor delivers a failure. -/
theorem statusText_spec (e : Editor) (k : ErrorKind) :
    (e.error = some (.IOFailed k) → statusText e = kindString k) ∧
    (e.error = some .DialogClosed →
      statusText e = statusText { e with error := Option.none }) ∧
    (∀ m, keepsError m = true → (e.update m).1.error = e.error) ∧
    (∀ m, keepsError m = true → e.error = some (.IOFailed k) →
      statusText (e.update m).1 = kindString k) := by
  have hkeep : ∀ m, keepsError m = true → (e.update m).1.error = e.error := by
    intro m hm
    cases m with
    | Edit a => simp [keepsError] at hm
    | New => rfl
    | Open => rfl
    | Save => rfl
    | FileOpened r =>
      rcases r with err | pr
      · simp [keepsError] at hm
      · rcases pr with ⟨p, s⟩; rfl
    | FileSaved r =>
      rcases r with err | p
      · simp [keepsError] at hm
      · rfl
  refine ⟨?_, ?_, hkeep, ?_⟩
  · intro h; simp [statusText, h]
  · intro h; simp [statusText, h]
  · intro m hm he
    simp [statusText, hkeep m hm, he]

/-- Witness for C4 amended: an `IOFailed NotFound` error is rendered as
"entity not found"; a `DialogClosed` error leaves the status equal to the
error-free rendering; handling `New` keeps the error and its display. -/
theorem statusText_spec_witness :
    (statusText ⟨some "a.txt", Content.new, some (Error.IOFailed .NotFound)⟩ =
      kindString .NotFound) ∧
    (statusText ⟨some "a.txt", Content.new, some Error.DialogClosed⟩ =
      statusText ⟨some "a.txt", Content.new, Option.none⟩) ∧
    (((⟨some "a.txt", Content.new, some (Error.IOFailed .NotFound)⟩ : Editor).update
        Message.New).1.error = some (Error.IOFailed .NotFound)) ∧
    (statusText ((⟨some "a.txt", Content.new, some (Error.IOFailed .NotFound)⟩ : Editor).update
        Message.New).1 = kindString .NotFound) :=
  ⟨(statusText_spec ⟨some "a.txt", Content.new, some (Error.IOFailed .NotFound)⟩ .NotFound).1 rfl,
   (statusText_spec ⟨some "a.txt", Content.new, some Error.DialogClosed⟩ .NotFound).2.1 rfl,
   (statusText_spec ⟨some "a.txt", Content.new, some (Error.IOFailed .NotFound)⟩ .NotFound).2.2.1
     Message.New rfl,
   (statusText_spec ⟨some "a.txt", Content.new, some (Error.IOFailed .NotFound)⟩ .NotFound).2.2.2
     Message.New rfl rfl⟩

/-- C5: handling `New` yields a state with no path and an empty document. -/
theorem new_resets (e : Editor) :
    ((e.update .New).1.path = Option.none) ∧
    ((e.update .New).1.content = Content.new) ∧
    ((e.update .New).1.content.text = "") :=
  ⟨rfl, rfl, rfl⟩

/-- C6: handling `Edit(action)` applies the action to the document buffer,
sets the error field to `None` (clearing any previous error), and leaves
the path unchanged. -/
theorem edit_applies_and_clears (e : Editor) (a : Action) :
    ((e.update (.Edit a)).1.content = e.content.edit a) ∧
    ((e.update (.Edit a)).1.error = Option.none) ∧
    ((e.update (.Edit a)).1.path = e.path) :=
  ⟨rfl, rfl, rfl⟩

/-- C7: handling `FileOpened(Ok(p, s))` sets the path to `Some p` and
replaces the document content wholesale with `s`. -/
theorem file_opened_ok (e : Editor) (p : Path) (s : String) :
    ((e.update (.FileOpened (.ok (p, s)))).1.path = some p) ∧
    ((e.update (.FileOpened (.ok (p, s)))).1.content = Content.withText s) ∧
    ((e.update (.FileOpened (.ok (p, s)))).1.content.text = s) :=
  ⟨rfl, rfl, rfl⟩

/-- C8 counterexample: startup already schedules a load task, and handling
`Open` before that load completes unconditionally starts a second task —
the trace consisting of `Open` alone, starting from one operation in
flight, violates single-flight. -/
theorem second_task_while_in_flight :
    ((Editor.new "/bonkitor").2 = Command.perform (Task.loadFile "/bonkitor/src/main.rs")) ∧
    (((Editor.new "/bonkitor").1.update Message.Open).2 = Command.perform Task.pickFile) ∧
    (startsTask Message.Open = true) ∧
    (completesTask Message.Open = false) ∧
    (singleFlightFrom 1 [Message.Open] = false) :=
  ⟨rfl, rfl, rfl, rfl, rfl⟩

/-- C8 amended: the state machine does not enforce single-flight — `Open`
and `Save` start a task unconditionally, in every state and regardless of
any pending operation, no other message starts one, and startup itself
starts a load; at most one operation in flight holds only if each
completion is delivered before the next `Open` or `Save`. -/
theorem update_command_characterization (e : Editor) (m : Message) (dir : String) :
    ((e.update m).2.isPerform = startsTask m) ∧
    ((Editor.new dir).2.isPerform = true) := by
  refine ⟨?_, rfl⟩
  cases m with
  | Edit a => rfl
  | New => rfl
  | Open => rfl
  | Save => rfl
  | FileOpened r =>
    rcases r with err | pr
    · rfl
    · rcases pr with ⟨p, s⟩; rfl
  | FileSaved r => rcases r with err | p <;> rfl

/-- C9: the initial state is blank (no path, empty content, no error) but
immediately schedules an async load of the default file, the crate
manifest directory joined with /src/main.rs, whose completion is delivered
as `FileOpened`. -/
theorem startup_loads_default (dir : String) (env : Env) :
    ((Editor.new dir).1.path = Option.none) ∧
    ((Editor.new dir).1.content.text = "") ∧
    ((Editor.new dir).1.error = Option.none) ∧
    ((Editor.new dir).2 = Command.perform (Task.loadFile (default_file dir))) ∧
    (default_file dir = dir ++ "/src/main.rs") ∧
    (deliver (.loadFile (default_file dir)) env
      = .FileOpened (load_file (default_file dir) env)) :=
  ⟨rfl, rfl, rfl, rfl, rfl, rfl⟩

/-- C10 counterexample: from a state whose error is `IOFailed NotFound`,
the non-Edit message `FileSaved(Err DialogClosed)` changes the error field
to `DialogClosed` — so a non-Edit message can fail to leave the error
equal to its previous value. -/
theorem err_completion_replaces_error :
    ((⟨Option.none, Content.new, some (Error.IOFailed .NotFound)⟩ : Editor).error
        = some (Error.IOFailed .NotFound)) ∧
    (((⟨Option.none, Content.new, some (Error.IOFailed .NotFound)⟩ : Editor).update
        (Message.FileSaved (.error Error.DialogClosed))).1.error
        = some Error.DialogClosed) ∧
    ((some Error.DialogClosed == some (Error.IOFailed .NotFound)) = false) :=
  ⟨rfl, rfl, by decide⟩

/-- C10 amended: `Edit` is the only message that sets the error field to
`None`; every other message leaves it set — `New`, `Open`, `Save`, and the
two successful completions leave it exactly equal to its previous value,
while the two failed completions replace it with the delivered error. -/
theorem only_edit_clears_error (e : Editor) :
    (∀ m, (∀ a, m ≠ .Edit a) → e.error.isSome = true →
      ((e.update m).1.error).isSome = true) ∧
    ((e.update .New).1.error = e.error) ∧
    ((e.update .Open).1.error = e.error) ∧
    ((e.update .Save).1.error = e.error) ∧
    (∀ p s, (e.update (.FileOpened (.ok (p, s)))).1.error = e.error) ∧
    (∀ p, (e.update (.FileSaved (.ok p))).1.error = e.error) ∧
    (∀ err, (e.update (.FileOpened (.error err))).1.error = some err) ∧
    (∀ err, (e.update (.FileSaved (.error err))).1.error = some err) ∧
    (∀ a, (e.update (.Edit a)).1.error = Option.none) := by
  refine ⟨?_, rfl, rfl, rfl, fun p s => rfl, fun p => rfl, fun err => rfl, fun err => rfl,
    fun a => rfl⟩
  intro m hm hsome
  cases m with
  | Edit a => exact absurd rfl (hm a)
  | New => exact hsome
  | Open => exact hsome
  | Save => exact hsome
  | FileOpened r =>
    rcases r with err | pr
    · rfl
    · rcases pr with ⟨p, s⟩; exact hsome
  | FileSaved r =>
    rcases r with err | p
    · rfl
    · exact hsome

/-- Witness for C10 amended: from a state with a recorded `DialogClosed`
error, handling `New` leaves the error field set. -/
theorem only_edit_clears_error_witness :
    (((⟨Option.none, Content.new, some Error.DialogClosed⟩ : Editor).update
        Message.New).1.error).isSome = true :=
  (only_edit_clears_error ⟨Option.none, Content.new, some Error.DialogClosed⟩).1
    Message.New (fun _ h => Message.noConfusion h) rfl

end Bonkitor
